import Mathlib

/-!
Verification of the VibeManager security-analysis pipeline.

The definitions below are a shallow embedding of the TypeScript sources:
`src/server/services/security-analysis.ts` (aggregator, risk score,
recommendation generator), the dependency scanner
(`DependencyScanner`), and the supply-chain analyzer
(`SupplyChainAnalyzer`).  Machine floats (`cvssScore`) and database ids
are not modelled; fallible I/O (file reads, JSON parsing) is modelled
with `Option`/`Except`; the sequence of status values written to the
`SecurityReport` row is modelled as an explicit history list.
-/

namespace VibeManager

/-- Prisma enum `SeverityLevel`. -/
inductive SeverityLevel where
  | CRITICAL
  | HIGH
  | MEDIUM
  | LOW
  | INFO
deriving DecidableEq, Repr

/-- Prisma enum `VulnerabilityType` (the members used by the pipeline). -/
inductive VulnerabilityType where
  | DEPENDENCY
  | SECRETS_EXPOSURE
  | SQL_INJECTION
  | XSS
  | CRYPTOGRAPHY
  | PATH_TRAVERSAL
  | INSECURE_DESERIALIZATION
deriving DecidableEq, Repr

/-- Prisma enum `SecurityStatus`. -/
inductive SecurityStatus where
  | PENDING
  | SCANNING
  | COMPLETED
  | FAILED
deriving DecidableEq, Repr

/-- The in-memory vulnerability/finding object built by the scanners
(`DependencyVulnerability` / `CodeVulnerability` interfaces).  The float
field `cvssScore` and fields unused by the verified code paths
(`lineNumber`, `codeSnippet`, `cweId`) are omitted. -/
structure Vulnerability where
  type : VulnerabilityType
  severity : SeverityLevel
  title : String
  description : String
  packageName : Option String := none
  packageVersion : Option String := none
  fixedVersion : Option String := none
  cveId : Option String := none
  owaspCategory : Option String := none
  filePath : Option String := none
deriving DecidableEq, Repr

/-- The `SupplyChainRisk` record produced by `analyzePackage`. -/
structure DependencyRisk where
  packageName : String
  packageVersion : String
  packageManager : String
  isDeprecated : Bool
  hasVulnerabilities : Bool
  license : Option String := none
  licenseRisk : SeverityLevel
  directDependency : Bool
  dependencyDepth : Nat
  suspiciousScore : Nat
  riskLevel : SeverityLevel
deriving DecidableEq, Repr

/-- One iteration of the vulnerability-scoring loop of
`calculateRiskScore` (`security-analysis.ts` lines 188-203): a `switch`
on the severity with no `INFO` case. -/
def vulnScoreStep (score : Nat) (vuln : Vulnerability) : Nat :=
  match vuln.severity with
  | SeverityLevel.CRITICAL => score + 10
  | SeverityLevel.HIGH => score + 5
  | SeverityLevel.MEDIUM => score + 2
  | SeverityLevel.LOW => score + 1
  | SeverityLevel.INFO => score

/-- One iteration of the supply-chain-scoring loop of
`calculateRiskScore` (`security-analysis.ts` lines 206-211). -/
def riskScoreStep (score : Nat) (risk : DependencyRisk) : Nat :=
  let s1 := if risk.isDeprecated then score + 3 else score
  let s2 := if risk.hasVulnerabilities then s1 + 5 else s1
  let s3 := if risk.suspiciousScore > 50 then s2 + 5 else s2
  if risk.licenseRisk = SeverityLevel.HIGH then s3 + 2 else s3

/-- `SecurityAnalysisService.calculateRiskScore`
(`security-analysis.ts` lines 181-215): one accumulator threaded
through both loops, then `Math.min(score, 100)`. -/
def calculateRiskScore (vulnerabilities : List Vulnerability)
    (supplyChainRisks : List DependencyRisk) : Nat :=
  min (supplyChainRisks.foldl riskScoreStep
        (vulnerabilities.foldl vulnScoreStep 0)) 100

/-- Per-vulnerability weights exactly as the spec words them:
CRITICAL +10, HIGH +5, MEDIUM +2, LOW +1, INFO +0. -/
def specVulnPoints (s : SeverityLevel) : Nat :=
  match s with
  | SeverityLevel.CRITICAL => 10
  | SeverityLevel.HIGH => 5
  | SeverityLevel.MEDIUM => 2
  | SeverityLevel.LOW => 1
  | SeverityLevel.INFO => 0

/-- Per-dependency-risk weights exactly as the spec words them: +3 if
deprecated, +5 if hasVulnerabilities, +5 if suspiciousScore > 50, +2 if
licenseRisk is HIGH. -/
def specRiskPoints (r : DependencyRisk) : Nat :=
  (if r.isDeprecated then 3 else 0) +
  (if r.hasVulnerabilities then 5 else 0) +
  (if r.suspiciousScore > 50 then 5 else 0) +
  (if r.licenseRisk = SeverityLevel.HIGH then 2 else 0)

/-- The additive reference formula of the spec, capped at 100. -/
def riskScoreSpec (vulnerabilities : List Vulnerability)
    (supplyChainRisks : List DependencyRisk) : Nat :=
  min ((vulnerabilities.map (fun v => specVulnPoints v.severity)).sum +
       (supplyChainRisks.map specRiskPoints).sum) 100

/-- Substring containment on character lists (contiguous infix). -/
def listIsInfix (needle : List Char) : List Char → Bool
  | [] => needle.isEmpty
  | c :: rest => needle.isPrefixOf (c :: rest) || listIsInfix needle rest

/-- JS `String.prototype.includes`: `s.includes(pat)` is substring
containment. -/
def strIncludes (s pat : String) : Bool :=
  listIsInfix pat.data s.data

/-- The `version.replace(/[^0-9.]/g, "")` step of
`versionIsVulnerable`: strip every character that is not a digit or a
dot. -/
def cleanVersionOf (version : String) : String :=
  String.mk (version.data.filter (fun c => c.isDigit || c = '.'))

/-- `DependencyScanner.versionIsVulnerable`: the stripped declared
version must occur as a substring of the affected-range string. -/
def versionIsVulnerable (version affectedVersions : String) : Bool :=
  strIncludes affectedVersions (cleanVersionOf version)

/-- One entry of the hardcoded vulnerability tables
(`getKnownNpmVulnerabilities` / `getKnownPythonVulnerabilities`).  The
float field `cvssScore` is omitted. -/
structure KnownVulnerability where
  title : String
  description : String
  severity : SeverityLevel
  affectedVersions : String
  fixedVersion : String
  cveId : String
  owaspCategory : String
deriving DecidableEq, Repr

/-- `DependencyScanner.getKnownNpmVulnerabilities`, as an association
list (the source builds a `Map` from these pairs). -/
def getKnownNpmVulnerabilities : List (String × List KnownVulnerability) :=
  [ ("lodash",
      [ { title := "Prototype Pollution",
          description := "Versions of lodash prior to 4.17.21 are vulnerable to prototype pollution",
          severity := SeverityLevel.HIGH,
          affectedVersions := "<4.17.21",
          fixedVersion := "4.17.21",
          cveId := "CVE-2020-8203",
          owaspCategory := "A06:2021 – Vulnerable and Outdated Components" } ]),
    ("axios",
      [ { title := "SSRF via Proxy",
          description := "Versions before 1.6.0 vulnerable to SSRF",
          severity := SeverityLevel.MEDIUM,
          affectedVersions := "<1.6.0",
          fixedVersion := "1.6.0",
          cveId := "CVE-2023-45857",
          owaspCategory := "A10:2021 – Server-Side Request Forgery" } ]),
    ("express",
      [ { title := "Open Redirect",
          description := "Express.js versions before 4.19.2 contain an open redirect vulnerability",
          severity := SeverityLevel.MEDIUM,
          affectedVersions := "<4.19.2",
          fixedVersion := "4.19.2",
          cveId := "CVE-2024-29041",
          owaspCategory := "A01:2021 – Broken Access Control" } ]) ]

/-- `DependencyScanner.getKnownPythonVulnerabilities`. -/
def getKnownPythonVulnerabilities : List (String × List KnownVulnerability) :=
  [ ("django",
      [ { title := "SQL Injection",
          description := "Django versions before 4.2.11 vulnerable to SQL injection",
          severity := SeverityLevel.HIGH,
          affectedVersions := "<4.2.11",
          fixedVersion := "4.2.11",
          cveId := "CVE-2024-27351",
          owaspCategory := "A03:2021 – Injection" } ]),
    ("flask",
      [ { title := "Session Cookie Security",
          description := "Improper session cookie handling in older versions",
          severity := SeverityLevel.MEDIUM,
          affectedVersions := "<2.3.0",
          fixedVersion := "2.3.0",
          cveId := "CVE-2023-30861",
          owaspCategory := "A07:2021 – Identification and Authentication Failures" } ]) ]

/-- The finding object pushed by `scanNpmDependencies` for one matching
table entry. -/
def mkNpmFinding (pkg version : String) (vuln : KnownVulnerability) :
    Vulnerability :=
  { type := VulnerabilityType.DEPENDENCY,
    severity := vuln.severity,
    title := pkg ++ ": " ++ vuln.title,
    description := vuln.description,
    packageName := some pkg,
    packageVersion := some version,
    fixedVersion := some vuln.fixedVersion,
    cveId := some vuln.cveId,
    owaspCategory := some vuln.owaspCategory,
    filePath := some "package.json" }

/-- The body of the per-dependency loop of `scanNpmDependencies`
(lines 383-404): table lookup, then one finding per entry whose
affected range matches the declared version. -/
def scanNpmEntry (pkg version : String) : List Vulnerability :=
  match getKnownNpmVulnerabilities.lookup pkg with
  | none => []
  | some vulns =>
    vulns.filterMap (fun vuln =>
      if versionIsVulnerable version vuln.affectedVersions then
        some (mkNpmFinding pkg version vuln)
      else none)

/-- A parsed `package.json`, keeping the two dependency sections as
key/value lists in object order. -/
structure PackageJson where
  dependencies : List (String × String)
  devDependencies : List (String × String)
deriving DecidableEq, Repr

/-- JS object spread `{...a, ...b}`: keys of `a` in order with values
overridden by `b` where present, followed by the keys of `b` not in
`a`. -/
def spreadMerge (a b : List (String × String)) : List (String × String) :=
  a.map (fun p => (p.1, (b.lookup p.1).getD p.2)) ++
    b.filter (fun q => (a.lookup q.1).isNone)

/-- `scanNpmDependencies` after a successful read and parse of
`package.json`: iterate `{...dependencies, ...devDependencies}`. -/
def scanNpmParsed (packageJson : PackageJson) : List Vulnerability :=
  (spreadMerge packageJson.dependencies packageJson.devDependencies).flatMap
    (fun p => scanNpmEntry p.1 p.2)

/-- `DependencyScanner.scanNpmDependencies`: the whole body is wrapped
in try/catch, so a failed read or JSON parse (`Except.error`) yields
the empty finding list instead of an exception. -/
def scanNpmDependencies (parsed : Except String PackageJson) :
    List Vulnerability :=
  match parsed with
  | Except.error _ => []
  | Except.ok packageJson => scanNpmParsed packageJson

/-- Character class `[a-zA-Z0-9-_]` of the requirements-line regex. -/
def isPyNameChar (c : Char) : Bool :=
  c.isAlpha || c.isDigit || c = '-' || c = '_'

/-- Character class `[>=<]`. -/
def isPyOpChar (c : Char) : Bool :=
  c = '>' || c = '=' || c = '<'

/-- Character class `[\d.]`. -/
def isVersionChar (c : Char) : Bool :=
  c.isDigit || c = '.'

/-- The regex `^([a-zA-Z0-9-_]+)([>=<]+)?([\d.]+)?` applied to a
trimmed requirements line: greedy prefix groups over disjoint character
classes.  Returns the package group and the optional version group
(`none` when the version group did not participate). -/
def parseRequirementLine (line : String) : Option (String × Option String) :=
  let cs := line.data
  let name := cs.takeWhile isPyNameChar
  if name.isEmpty then none
  else
    let rest := (cs.dropWhile isPyNameChar).dropWhile isPyOpChar
    let ver := rest.takeWhile isVersionChar
    some (String.mk name, if ver.isEmpty then none else some (String.mk ver))

/-- The finding pushed by `scanPythonDependencies` (it carries no
`owaspCategory`, unlike the npm one). -/
def mkPythonFinding (pkg version : String) (vuln : KnownVulnerability) :
    Vulnerability :=
  { type := VulnerabilityType.DEPENDENCY,
    severity := vuln.severity,
    title := pkg ++ ": " ++ vuln.title,
    description := vuln.description,
    packageName := some pkg,
    packageVersion := some version,
    fixedVersion := some vuln.fixedVersion,
    cveId := some vuln.cveId,
    owaspCategory := none,
    filePath := some "requirements.txt" }

/-- The body of the per-line loop of `scanPythonDependencies`: skip
blank and comment lines, parse, require a version group, then match
against the python table. -/
def scanPythonLine (line : String) : List Vulnerability :=
  let trimmed := line.trim
  if trimmed.isEmpty || trimmed.startsWith "#" then []
  else
    match parseRequirementLine trimmed with
    | none => []
    | some (_, none) => []
    | some (pkg, some version) =>
      match getKnownPythonVulnerabilities.lookup pkg with
      | none => []
      | some vulns =>
        vulns.filterMap (fun vuln =>
          if versionIsVulnerable version vuln.affectedVersions then
            some (mkPythonFinding pkg version vuln)
          else none)

/-- `DependencyScanner.scanPythonDependencies`: try/catch around the
read, then split the content on newlines and scan each line. -/
def scanPythonDependencies (parsed : Except String String) :
    List Vulnerability :=
  match parsed with
  | Except.error _ => []
  | Except.ok content => (content.splitOn "\n").flatMap scanPythonLine

/-- `DependencyScanner.scanRubyDependencies`: a stub — the body is only
the comment "Simplified Ruby scanning" and `return []`. -/
def scanRubyDependencies (_gemfileContent : String) : List Vulnerability :=
  []

/-- `DependencyScanner.scanPhpDependencies`: a stub returning `[]`. -/
def scanPhpDependencies (_composerContent : String) : List Vulnerability :=
  []

/-- The manifests of one repository as seen by `scanDependencies`:
`none` when `fileExists` is false, `Except.error` when the read or
parse of a present manifest fails. -/
structure RepoManifests where
  packageJson : Option (Except String PackageJson) := none
  requirementsTxt : Option (Except String String) := none
  gemfile : Option String := none
  composerJson : Option String := none
deriving Repr

/-- `DependencyScanner.scanDependencies` (lines 333-365): scan each
manifest that exists and concatenate the findings in source order
(npm, python, ruby, php). -/
def scanDependencies (repo : RepoManifests) : List Vulnerability :=
  (match repo.packageJson with
   | none => []
   | some parsed => scanNpmDependencies parsed) ++
  (match repo.requirementsTxt with
   | none => []
   | some parsed => scanPythonDependencies parsed) ++
  (match repo.gemfile with
   | none => []
   | some content => scanRubyDependencies content) ++
  (match repo.composerJson with
   | none => []
   | some content => scanPhpDependencies content)

/-- The fixed popular-package list of
`SupplyChainAnalyzer.calculateSuspiciousScore`. -/
def popularPackages : List String :=
  ["react", "vue", "angular", "express", "lodash", "axios",
   "webpack", "babel", "eslint", "typescript"]

/-- Inner loop of `levenshteinDistance`: given the previous matrix row
(seen from position `j - 1` onward), the char `c` of `str2` for this
row, the remaining chars of `str1`, and the value just computed at
`(i, j - 1)`, produce the entries `j = 1 .. |str1|` of row `i`.
The source takes `min(diag + 1, left + 1, up + 1)` when the chars
differ and copies the diagonal when they match. -/
def levRowFrom (c : Char) : List Char → List Nat → Nat → List Nat
  | [], _, _ => []
  | _ :: _, [], _ => []
  | x :: xs, d :: rest, cur =>
    let up := rest.headD 0
    let v := if x = c then d else min (d + 1) (min (cur + 1) (up + 1))
    v :: levRowFrom c xs rest v

/-- `SupplyChainAnalyzer.levenshteinDistance(str1, str2)`: the classic
dynamic-programming matrix, built row by row over `str2` with row 0
being `0, 1, .., |str1|` and column 0 of row `i` being `i`; the result
is the bottom-right entry. -/
def levenshteinDistance (str1 str2 : String) : Nat :=
  let row0 : List Nat := List.range (str1.length + 1)
  let final := str2.data.foldl
    (fun (st : List Nat × Nat) c =>
      let i := st.2 + 1
      (i :: levRowFrom c str1.data st.1 i, i))
    (row0, 0)
  final.1.getLastD 0

/-- One iteration of the popular-package loop of
`calculateSuspiciousScore`: +50 at edit distance 1, +30 at distance 2. -/
def typosquatStep (packageName : String) (score : Nat) (popular : String) :
    Nat :=
  let distance := levenshteinDistance packageName popular
  if distance = 1 then score + 50
  else if distance = 2 then score + 30
  else score

/-- Regex `/[0-9]{3,}/.test(name)`: three consecutive digits somewhere
in the name. -/
def hasThreeConsecutiveDigits (name : String) : Bool :=
  go name.data
where
  go : List Char → Bool
    | a :: b :: c :: rest =>
      (a.isDigit && b.isDigit && c.isDigit) || go (b :: c :: rest)
    | _ => false

/-- Regex `/^lib[a-z]{1,3}$/i`: case-insensitively, `lib` followed by
one to three letters (the `/i` flag is modelled by lowercasing each
character first). -/
def matchesLibPattern (name : String) : Bool :=
  match name.data.map Char.toLower with
  | 'l' :: 'i' :: 'b' :: rest =>
    decide (1 ≤ rest.length) && decide (rest.length ≤ 3) &&
      rest.all (fun c => 'a' ≤ c && c ≤ 'z')
  | _ => false

/-- Regex `/^utils?[0-9]$/i`. -/
def matchesUtilPattern (name : String) : Bool :=
  match name.data.map Char.toLower with
  | ['u', 't', 'i', 'l', 's', d] => d.isDigit
  | ['u', 't', 'i', 'l', d] => d.isDigit
  | _ => false

/-- Regex `/^core[0-9]$/i`. -/
def matchesCorePattern (name : String) : Bool :=
  match name.data.map Char.toLower with
  | ['c', 'o', 'r', 'e', d] => d.isDigit
  | _ => false

/-- The `maliciousPatterns` array of `calculateSuspiciousScore`. -/
def maliciousPatterns : List (String → Bool) :=
  [matchesLibPattern, matchesUtilPattern, matchesCorePattern]

/-- `SupplyChainAnalyzer.calculateSuspiciousScore`: the typosquatting
loop over popular package names, then the naming heuristics, then the
generic-name pattern loop, capped at 100. -/
def calculateSuspiciousScore (packageName : String) : Nat :=
  let score := popularPackages.foldl (typosquatStep packageName) 0
  let score :=
    if strIncludes packageName "test" && packageName.length < 8 then
      score + 20
    else score
  let score := if hasThreeConsecutiveDigits packageName then score + 15 else score
  let score := if packageName.length < 3 then score + 10 else score
  let score := maliciousPatterns.foldl
    (fun score pattern => if pattern packageName then score + 25 else score)
    score
  min score 100

/-- The typosquatting component as the spec words it: the sum over all
popular names of 50 at distance exactly 1 and 30 at distance exactly 2. -/
def typosquatScoreSpec (packageName : String) : Nat :=
  (popularPackages.map (fun popular =>
    let d := levenshteinDistance packageName popular
    if d = 1 then 50 else if d = 2 then 30 else 0)).sum

/-- The non-typosquatting heuristics of the suspiciousness score, as an
additive sum. -/
def otherHeuristicsScore (packageName : String) : Nat :=
  (if strIncludes packageName "test" && packageName.length < 8 then 20 else 0) +
  (if hasThreeConsecutiveDigits packageName then 15 else 0) +
  (if packageName.length < 3 then 10 else 0) +
  (maliciousPatterns.map (fun pattern =>
    if pattern packageName then 25 else 0)).sum

/-- `SecurityAnalysisService.getPriorityFromSeverity`
(`security-analysis.ts` lines 367-380); the `default` arm (reached only
by INFO) returns 1. -/
def getPriorityFromSeverity (severity : SeverityLevel) : Nat :=
  match severity with
  | SeverityLevel.CRITICAL => 10
  | SeverityLevel.HIGH => 8
  | SeverityLevel.MEDIUM => 5
  | SeverityLevel.LOW => 3
  | SeverityLevel.INFO => 1

/-- Prisma enum value string used in the group key template
`vuln.type + "-" + (vuln.packageName || "code")`. -/
def typeStr (t : VulnerabilityType) : String :=
  match t with
  | VulnerabilityType.DEPENDENCY => "DEPENDENCY"
  | VulnerabilityType.SECRETS_EXPOSURE => "SECRETS_EXPOSURE"
  | VulnerabilityType.SQL_INJECTION => "SQL_INJECTION"
  | VulnerabilityType.XSS => "XSS"
  | VulnerabilityType.CRYPTOGRAPHY => "CRYPTOGRAPHY"
  | VulnerabilityType.PATH_TRAVERSAL => "PATH_TRAVERSAL"
  | VulnerabilityType.INSECURE_DESERIALIZATION => "INSECURE_DESERIALIZATION"

/-- The grouping key of `generateRecommendations`:
`` `${vuln.type}-${vuln.packageName || "code"}` `` (JS falsiness: a
missing or empty package name becomes `"code"`). -/
def vulnGroupKey (v : Vulnerability) : String :=
  typeStr v.type ++ "-" ++
    (match v.packageName with
     | some s => if s = "" then "code" else s
     | none => "code")

/-- Appending a vulnerability to its key group, preserving the
insertion order of a JS `Map` (new keys go to the end). -/
def upsertGroup : List (String × List Vulnerability) → String →
    Vulnerability → List (String × List Vulnerability)
  | [], key, v => [(key, [v])]
  | (k, vs) :: rest, key, v =>
    if k = key then (k, vs ++ [v]) :: rest
    else (k, vs) :: upsertGroup rest key v

/-- The `vulnsByType` map of `generateRecommendations`, as an ordered
association list. -/
def vulnsByTypeGroups (vulnerabilities : List Vulnerability) :
    List (String × List Vulnerability) :=
  vulnerabilities.foldl (fun acc v => upsertGroup acc (vulnGroupKey v) v) []

/-- JS truthiness of `vulns[0].fixedVersion`: present and non-empty. -/
def isTruthyStr : Option String → Bool
  | none => false
  | some s => !s.isEmpty

/-- A `SecurityRecommendation` as synthesized by
`generateRecommendations`.  The static `description`, `steps`,
`relatedVulnerabilityIds` and `estimatedEffort` fields are omitted. -/
structure SecurityRecommendation where
  severity : SeverityLevel
  category : String
  title : String
  priority : Nat
deriving DecidableEq, Repr

/-- The dependency-update recommendation built from one group
(`security-analysis.ts` lines 234-252): all fields come from the
group's FIRST vulnerability, except the count in the title. -/
def mkUpdateRecommendation (v0 : Vulnerability) (count : Nat) :
    SecurityRecommendation :=
  { severity := v0.severity,
    category := "Dependency Update",
    title := "Update " ++ v0.packageName.getD "undefined" ++ " to fix " ++
      toString count ++ " vulnerability(ies)",
    priority := getPriorityFromSeverity v0.severity }

/-- The per-group conditional of the dependency-update rule:
`vulns[0].type === DEPENDENCY && vulns[0].fixedVersion`. -/
def depUpdateRec? (group : String × List Vulnerability) :
    Option SecurityRecommendation :=
  match group.2 with
  | [] => none
  | v0 :: rest =>
    if v0.type = VulnerabilityType.DEPENDENCY && isTruthyStr v0.fixedVersion then
      some (mkUpdateRecommendation v0 (rest.length + 1))
    else none

/-- `SecurityAnalysisService.generateRecommendations`
(`security-analysis.ts` lines 217-365): the grouped dependency-update
rule followed by the five fixed category rules, in source order. -/
def generateRecommendations (vulnerabilities : List Vulnerability)
    (supplyChainRisks : List DependencyRisk) : List SecurityRecommendation :=
  let depRecs := (vulnsByTypeGroups vulnerabilities).filterMap depUpdateRec?
  let secretsExposure := vulnerabilities.filter
    (fun v => v.type = VulnerabilityType.SECRETS_EXPOSURE)
  let secretsRecs :=
    if secretsExposure.length > 0 then
      [{ severity := SeverityLevel.CRITICAL,
         category := "Security Configuration",
         title := "Remove exposed secrets from codebase",
         priority := 10 : SecurityRecommendation }]
    else []
  let sqlInjection := vulnerabilities.filter
    (fun v => v.type = VulnerabilityType.SQL_INJECTION)
  let sqlRecs :=
    if sqlInjection.length > 0 then
      [{ severity := SeverityLevel.HIGH,
         category := "Code Fix",
         title := "Fix SQL injection vulnerabilities",
         priority := 9 : SecurityRecommendation }]
    else []
  let xss := vulnerabilities.filter (fun v => v.type = VulnerabilityType.XSS)
  let xssRecs :=
    if xss.length > 0 then
      [{ severity := SeverityLevel.HIGH,
         category := "Code Fix",
         title := "Fix Cross-Site Scripting (XSS) vulnerabilities",
         priority := 8 : SecurityRecommendation }]
    else []
  let deprecatedDeps := supplyChainRisks.filter (fun r => r.isDeprecated)
  let deprecatedRecs :=
    if deprecatedDeps.length > 0 then
      [{ severity := SeverityLevel.MEDIUM,
         category := "Dependency Maintenance",
         title := "Replace " ++ toString deprecatedDeps.length ++
           " deprecated dependencies",
         priority := 5 : SecurityRecommendation }]
    else []
  let suspiciousPackages := supplyChainRisks.filter
    (fun r => r.suspiciousScore > 70)
  let suspiciousRecs :=
    if suspiciousPackages.length > 0 then
      [{ severity := SeverityLevel.HIGH,
         category := "Supply Chain Security",
         title := "Review " ++ toString suspiciousPackages.length ++
           " suspicious package(s)",
         priority := 7 : SecurityRecommendation }]
    else []
  depRecs ++ secretsRecs ++ sqlRecs ++ xssRecs ++ deprecatedRecs ++
    suspiciousRecs

/-- Two DEPENDENCY findings for one package at two different
severities, both with a known fixed version: under a
(package, severity) grouping these form two groups, under the
implemented (type, package) grouping they form one. -/
def twoSeverityLodashFindings : List Vulnerability :=
  [ { type := VulnerabilityType.DEPENDENCY,
      severity := SeverityLevel.CRITICAL,
      title := "lodash: Prototype Pollution",
      description := "first finding",
      packageName := some "lodash",
      packageVersion := some "4.17.15",
      fixedVersion := some "4.17.21" },
    { type := VulnerabilityType.DEPENDENCY,
      severity := SeverityLevel.HIGH,
      title := "lodash: Command Injection",
      description := "second finding",
      packageName := some "lodash",
      packageVersion := some "4.17.15",
      fixedVersion := some "4.17.21" } ]

/-- Outcome of one `analyzeSecurity` run: the sequence of `status`
values written for the report row, in write order, together with the
propagated error or the returned risk score. -/
structure ScanOutcome where
  statusHistory : List SecurityStatus
  result : Except String Nat
deriving Repr

/-- `SecurityAnalysisService.analyzeSecurity` (`security-analysis.ts`
lines 22-149), abstracted over the parallel scanners: the report row is
created with status SCANNING; if the scanners (or any later step before
the final update) throw, the catch block only logs and rethrows — no
further status write happens; on success the single update sets status
COMPLETED.  Per-record child inserts do not touch the status and are
not modelled. -/
def analyzeSecurity
    (scanResults : Except String (List Vulnerability × List DependencyRisk)) :
    ScanOutcome :=
  match scanResults with
  | Except.error e =>
    { statusHistory := [SecurityStatus.SCANNING], result := Except.error e }
  | Except.ok (vulnerabilities, supplyChainRisks) =>
    let riskScore := calculateRiskScore vulnerabilities supplyChainRisks
    { statusHistory := [SecurityStatus.SCANNING, SecurityStatus.COMPLETED],
      result := Except.ok riskScore }

lemma vulnScoreStep_eq (score : Nat) (v : Vulnerability) :
    vulnScoreStep score v = score + specVulnPoints v.severity := by
  cases h : v.severity <;> simp [vulnScoreStep, specVulnPoints, h]

lemma riskScoreStep_eq (score : Nat) (r : DependencyRisk) :
    riskScoreStep score r = score + specRiskPoints r := by
  simp only [riskScoreStep, specRiskPoints]
  split_ifs <;> omega

/-- An accumulating fold whose step adds `f a` equals the initial value
plus the sum of the pointwise contributions. -/
lemma foldl_add_pointwise {α : Type} (g : Nat → α → Nat) (f : α → Nat)
    (hg : ∀ s a, g s a = s + f a) :
    ∀ (l : List α) (init : Nat), l.foldl g init = init + (l.map f).sum := by
  intro l
  induction l with
  | nil => intro init; simp
  | cons a t ih =>
    intro init
    rw [List.foldl_cons, hg, ih]
    simp [Nat.add_assoc]

/-- Claim C1: for every list of vulnerabilities and every list of
dependency risks, `calculateRiskScore` equals the additive reference
formula (+10 CRITICAL, +5 HIGH, +2 MEDIUM, +1 LOW, +0 INFO per
vulnerability; +3 deprecated, +5 hasVulnerabilities, +5 suspicious
score above 50, +2 HIGH license risk per dependency risk) capped at
100, and the result always lies in [0, 100]. -/
theorem riskScore_additive_clamped (vulnerabilities : List Vulnerability)
    (supplyChainRisks : List DependencyRisk) :
    calculateRiskScore vulnerabilities supplyChainRisks =
      riskScoreSpec vulnerabilities supplyChainRisks ∧
    calculateRiskScore vulnerabilities supplyChainRisks ≤ 100 := by
  constructor
  · unfold calculateRiskScore riskScoreSpec
    rw [foldl_add_pointwise vulnScoreStep (fun v => specVulnPoints v.severity)
          vulnScoreStep_eq,
        foldl_add_pointwise riskScoreStep specRiskPoints riskScoreStep_eq]
    omega
  · exact Nat.min_le_right _ _

lemma filterMap_ite {α β : Type} (p : α → Bool) (f : α → β) (l : List α) :
    (l.filterMap fun a => if p a then some (f a) else none) =
      (l.filter p).map f := by
  induction l with
  | nil => rfl
  | cons a t ih =>
    cases h : p a <;>
      simp [List.filterMap_cons, List.filter_cons, h, ih]

/-- Claim C2 (against the code as written): at the spec's own example
inputs the npm matcher is inverted — lodash declared at `4.17.20`
(stripped: not a substring of `"<4.17.21"`) produces NO finding, while
lodash at the fixed version `4.17.21` (a substring of `"<4.17.21"`)
produces the HIGH CVE-2020-8203 finding.  This contradicts the table's
own description ("prior to 4.17.21 are vulnerable") and `fixedVersion`
field. -/
theorem lodash_version_match_inverted :
    scanNpmParsed ⟨[("lodash", "4.17.20")], []⟩ = [] ∧
    (scanNpmParsed ⟨[("lodash", "4.17.21")], []⟩).map
        (fun v => (v.severity, v.cveId)) =
      [(SeverityLevel.HIGH, some "CVE-2020-8203")] := by
  exact ⟨rfl, rfl⟩

/-- Claim C3: a declared npm dependency is flagged exactly when the
declared version string, stripped of every non-numeric character, is a
substring of the table entry's affected-range string, and every
matching table entry produces its own finding. -/
theorem npm_flag_iff_substring (pkg version : String) :
    scanNpmParsed ⟨[(pkg, version)], []⟩ =
      (((getKnownNpmVulnerabilities.lookup pkg).getD []).filter
          (fun vuln => strIncludes vuln.affectedVersions (cleanVersionOf version))).map
        (mkNpmFinding pkg version) := by
  have hsingle :
      scanNpmParsed ⟨[(pkg, version)], []⟩ =
        scanNpmEntry pkg version := by
    simp [scanNpmParsed, spreadMerge]
  rw [hsingle]
  unfold scanNpmEntry
  cases h : getKnownNpmVulnerabilities.lookup pkg with
  | none => simp
  | some vulns =>
    simp only [Option.getD_some]
    rw [filterMap_ite (fun vuln =>
      versionIsVulnerable version vuln.affectedVersions) (mkNpmFinding pkg version)]
    rfl

/-- Claim C4 counterexample: on a scan that fails after the report row
was created, the error is propagated, but the FAILED status is never
written — refuting the claim that the report is set to FAILED. -/
theorem failed_status_never_set_cx :
    (analyzeSecurity (Except.error "ENOENT: repo path missing")).result =
      Except.error "ENOENT: repo path missing" ∧
    SecurityStatus.FAILED ∉
      (analyzeSecurity (Except.error "ENOENT: repo path missing")).statusHistory := by
  exact ⟨rfl, by decide⟩

/-- Claim C4 as amended: an unhandled error after report creation
propagates to the caller with no retry, and the report keeps the
SCANNING status it was created with — it is never set to FAILED. -/
theorem scan_error_propagates_without_failed (e : String) :
    (analyzeSecurity (Except.error e)).result = Except.error e ∧
    (analyzeSecurity (Except.error e)).statusHistory =
      [SecurityStatus.SCANNING] := by
  exact ⟨rfl, rfl⟩

/-- Claim C5 counterexample: on a successful scan the first status ever
written is SCANNING and PENDING never occurs — refuting the claim that
the report starts as PENDING. -/
theorem report_starts_scanning_cx :
    (analyzeSecurity (Except.ok ([], []))).statusHistory.head? =
      some SecurityStatus.SCANNING ∧
    SecurityStatus.PENDING ∉
      (analyzeSecurity (Except.ok ([], []))).statusHistory := by
  exact ⟨rfl, by decide⟩

/-- Claim C5 as amended: for every scan the report is created directly
in the SCANNING state and its status history is either just
[SCANNING] (failure) or [SCANNING, COMPLETED] (success); PENDING and
FAILED are never observed, and nothing follows COMPLETED. -/
theorem status_transitions_scanning_completed
    (scanResults : Except String (List Vulnerability × List DependencyRisk)) :
    (analyzeSecurity scanResults).statusHistory.head? =
      some SecurityStatus.SCANNING ∧
    ((analyzeSecurity scanResults).statusHistory =
        [SecurityStatus.SCANNING] ∨
      (analyzeSecurity scanResults).statusHistory =
        [SecurityStatus.SCANNING, SecurityStatus.COMPLETED]) ∧
    SecurityStatus.PENDING ∉ (analyzeSecurity scanResults).statusHistory ∧
    SecurityStatus.FAILED ∉ (analyzeSecurity scanResults).statusHistory := by
  cases scanResults with
  | error e =>
    refine ⟨rfl, Or.inl rfl, ?_, ?_⟩ <;> simp [analyzeSecurity]
  | ok results =>
    obtain ⟨vulnerabilities, supplyChainRisks⟩ := results
    refine ⟨rfl, Or.inr rfl, ?_, ?_⟩ <;> simp [analyzeSecurity]

/-- Claim C7: a package manifest that fails to read or parse is
swallowed by the per-scanner try/catch — it contributes zero findings
and the scan of the remaining manifests proceeds unchanged. -/
theorem malformed_manifest_skipped (e : String) (repo : RepoManifests) :
    scanNpmDependencies (Except.error e) = [] ∧
    scanPythonDependencies (Except.error e) = [] ∧
    scanDependencies { repo with packageJson := some (Except.error e) } =
      scanDependencies { repo with packageJson := none } ∧
    scanDependencies { repo with requirementsTxt := some (Except.error e) } =
      scanDependencies { repo with requirementsTxt := none } := by
  refine ⟨rfl, rfl, ?_, ?_⟩ <;>
    simp [scanDependencies, scanNpmDependencies, scanPythonDependencies]

/-- Claim C8 counterexample: a repository whose only manifest is a
Gemfile declaring lodash at an affected version yields NO findings,
even though the same dependency declared through package.json does
yield one — the Ruby (and PHP) readers never feed the matcher. -/
theorem gemfile_composer_stub_cx :
    scanDependencies ⟨none, none, some "gem lodash 4.17.2", none⟩ = [] ∧
    scanNpmParsed ⟨[("lodash", "4.17.2")], []⟩ ≠ [] := by
  exact ⟨rfl, by decide⟩

/-- Claim C8 as amended: `scanDependencies` does look for a Gemfile and
a composer.json, but their scanners are stubs returning no
dependencies and no findings for any content, so those manifests never
contribute; only package.json and requirements.txt are parsed. -/
theorem gemfile_composer_scanners_empty (gemfileContent composerContent : String)
    (repo : RepoManifests) :
    scanRubyDependencies gemfileContent = [] ∧
    scanPhpDependencies composerContent = [] ∧
    scanDependencies { repo with gemfile := some gemfileContent, composerJson := some composerContent } =
      scanDependencies { repo with gemfile := none, composerJson := none } := by
  refine ⟨rfl, rfl, ?_⟩
  simp [scanDependencies, scanRubyDependencies, scanPhpDependencies]

lemma typosquatStep_eq (packageName : String) (score : Nat) (popular : String) :
    typosquatStep packageName score popular =
      score + (let d := levenshteinDistance packageName popular
               if d = 1 then 50 else if d = 2 then 30 else 0) := by
  simp only [typosquatStep]
  split_ifs <;> omega

lemma maliciousStep_eq (packageName : String) (score : Nat)
    (pattern : String → Bool) :
    (if pattern packageName then score + 25 else score) =
      score + (if pattern packageName then 25 else 0) := by
  split_ifs <;> omega

/-- Claim C9: the suspiciousness score is the popular-name loop
contribution (exactly +50 per popular name at Levenshtein distance 1
and +30 per name at distance 2, summed over all comparisons) plus the
independent naming heuristics, capped at 100; the distance function is
classic Levenshtein with distance("react","react") = 0,
distance("raect","react") = 2 and distance("reactt","react") = 1, and
"reactt" scores exactly the +50 typosquatting contribution. -/
theorem suspicious_score_typosquat (packageName : String) :
    calculateSuspiciousScore packageName =
      min (typosquatScoreSpec packageName + otherHeuristicsScore packageName) 100 ∧
    levenshteinDistance "react" "react" = 0 ∧
    levenshteinDistance "raect" "react" = 2 ∧
    levenshteinDistance "reactt" "react" = 1 ∧
    calculateSuspiciousScore "reactt" = 50 := by
  refine ⟨?_, by decide, by decide, by decide, by decide⟩
  have h1 : popularPackages.foldl (typosquatStep packageName) 0 =
      typosquatScoreSpec packageName := by
    rw [foldl_add_pointwise (typosquatStep packageName)
          (fun popular => let d := levenshteinDistance packageName popular
                          if d = 1 then 50 else if d = 2 then 30 else 0)
          (typosquatStep_eq packageName)]
    simp [typosquatScoreSpec]
  have h2 : ∀ s : Nat, maliciousPatterns.foldl
      (fun score pattern => if pattern packageName then score + 25 else score) s =
        s + (maliciousPatterns.map
          (fun pattern => if pattern packageName then 25 else 0)).sum :=
    foldl_add_pointwise _ _ (maliciousStep_eq packageName) maliciousPatterns
  unfold calculateSuspiciousScore
  simp only [h1, h2]
  unfold otherHeuristicsScore
  generalize (maliciousPatterns.map
    (fun pattern => if pattern packageName then 25 else 0)).sum = M
  split_ifs <;> omega

lemma lookup_append (l₁ l₂ : List (String × String)) (k : String) :
    (l₁ ++ l₂).lookup k = ((l₁.lookup k).orElse fun _ => l₂.lookup k) := by
  induction l₁ with
  | nil => simp [Option.orElse]
  | cons p t ih =>
    obtain ⟨a, b⟩ := p
    cases h : k == a <;> simp [List.lookup, h, ih, Option.orElse]

lemma lookup_map_override (b : List (String × String)) :
    ∀ (a : List (String × String)) (k : String),
      (a.map (fun p => (p.1, (b.lookup p.1).getD p.2))).lookup k =
        (a.lookup k).map (fun v => (b.lookup k).getD v) := by
  intro a
  induction a with
  | nil => intro k; simp
  | cons p t ih =>
    intro k
    obtain ⟨a1, b1⟩ := p
    cases h : k == a1
    · simp [List.lookup, h, ih]
    · have hk : k = a1 := eq_of_beq h
      subst hk
      simp [List.lookup, h]

lemma lookup_filter_none (a : List (String × String)) :
    ∀ (b : List (String × String)) (k : String),
      (b.filter (fun q => (a.lookup q.1).isNone)).lookup k =
        if (a.lookup k).isNone then b.lookup k else none := by
  intro b
  induction b with
  | nil => intro k; simp [List.lookup]
  | cons q t ih =>
    intro k
    obtain ⟨q1, q2⟩ := q
    cases hq : (a.lookup q1).isNone
    · cases hk : k == q1
      · simp [List.filter_cons, hq, List.lookup, hk, ih]
      · have hkq : k = q1 := eq_of_beq hk
        subst hkq
        simp [List.filter_cons, hq, List.lookup, ih]
    · cases hk : k == q1
      · simp [List.filter_cons, hq, List.lookup, hk, ih]
      · have hkq : k = q1 := eq_of_beq hk
        subst hkq
        simp [List.filter_cons, hq, List.lookup, hk, ih]

/-- Claim C10 (implicit): the npm scan covers devDependencies exactly
like dependencies — the merged object resolves a package present in
both sections to the devDependencies version (JS spread override), a
section-only swap does not change the findings, and a package declared
in both sections is scanned at its devDependencies version. -/
theorem devDependencies_scanned_override (deps devDeps : List (String × String))
    (pkg v1 v2 : String) :
    (spreadMerge deps devDeps).lookup pkg =
      ((devDeps.lookup pkg).orElse fun _ => deps.lookup pkg) ∧
    scanNpmParsed ⟨[], devDeps⟩ = scanNpmParsed ⟨devDeps, []⟩ ∧
    scanNpmParsed ⟨[(pkg, v1)], [(pkg, v2)]⟩ = scanNpmParsed ⟨[(pkg, v2)], []⟩ := by
  refine ⟨?_, ?_, ?_⟩
  · unfold spreadMerge
    rw [lookup_append, lookup_map_override, lookup_filter_none]
    cases ha : deps.lookup pkg <;> cases hb : devDeps.lookup pkg <;>
      simp [ha, hb, Option.orElse]
  · simp [scanNpmParsed, spreadMerge, List.lookup]
  · simp [scanNpmParsed, spreadMerge, List.lookup]

lemma depUpdateRec?_spec (g : String × List Vulnerability)
    (r : SecurityRecommendation) (h : depUpdateRec? g = some r) :
    r.category = "Dependency Update" ∧
    r.priority = getPriorityFromSeverity r.severity := by
  obtain ⟨key, vlist⟩ := g
  cases vlist with
  | nil => simp [depUpdateRec?] at h
  | cons v0 rest =>
    simp only [depUpdateRec?] at h
    split at h
    · cases h
      exact ⟨rfl, rfl⟩
    · cases h

lemma filter_of_filterMap_all {α β : Type} (f : α → Option β) (p : β → Bool)
    (l : List α) (h : ∀ a b, f a = some b → p b = true) :
    (l.filterMap f).filter p = l.filterMap f := by
  induction l with
  | nil => rfl
  | cons a t ih =>
    cases hf : f a with
    | none => simp [List.filterMap_cons, hf, ih]
    | some b => simp [List.filterMap_cons, hf, List.filter_cons, h a b hf, ih]

lemma length_filterMap_eq {α β : Type} (f : α → Option β) (l : List α) :
    (l.filterMap f).length = (l.filter (fun a => (f a).isSome)).length := by
  induction l with
  | nil => rfl
  | cons a t ih =>
    cases hf : f a <;>
      simp [List.filterMap_cons, List.filter_cons, hf, ih]

/-- Claim C6 counterexample: one package whose DEPENDENCY findings
carry two distinct severities (CRITICAL and HIGH), both with a fixed
version, forms two distinct (package, severity) groups but receives
exactly ONE dependency-update recommendation — refuting "one
recommendation per distinct (package, severity) group". -/
theorem update_rec_grouping_cx :
    ((generateRecommendations twoSeverityLodashFindings []).filter
        (fun r => r.category = "Dependency Update")).length = 1 ∧
    ((twoSeverityLodashFindings.map
        (fun v => (v.packageName, v.severity))).dedup).length = 2 := by
  exact ⟨rfl, by decide⟩

/-- Claim C6 as amended: the dependency-update recommendations are
exactly one per distinct group keyed by (vulnerability type, package
name), emitted when the group's FIRST finding is DEPENDENCY-typed with
a truthy fixedVersion; each recommendation takes its severity from that
first finding and its priority from that severity via CRITICAL→10,
HIGH→8, MEDIUM→5, LOW→3. -/
theorem update_rec_per_type_package_group
    (vulnerabilities : List Vulnerability)
    (supplyChainRisks : List DependencyRisk) :
    ((generateRecommendations vulnerabilities supplyChainRisks).filter
        (fun r => r.category = "Dependency Update")) =
      (vulnsByTypeGroups vulnerabilities).filterMap depUpdateRec? ∧
    ((generateRecommendations vulnerabilities supplyChainRisks).filter
        (fun r => r.category = "Dependency Update")).length =
      ((vulnsByTypeGroups vulnerabilities).filter
          (fun g => (depUpdateRec? g).isSome)).length ∧
    ((generateRecommendations vulnerabilities supplyChainRisks).filter
        (fun r => r.category = "Dependency Update")).map
        (fun r => r.priority) =
      ((generateRecommendations vulnerabilities supplyChainRisks).filter
          (fun r => r.category = "Dependency Update")).map
        (fun r => getPriorityFromSeverity r.severity) ∧
    getPriorityFromSeverity SeverityLevel.CRITICAL = 10 ∧
    getPriorityFromSeverity SeverityLevel.HIGH = 8 ∧
    getPriorityFromSeverity SeverityLevel.MEDIUM = 5 ∧
    getPriorityFromSeverity SeverityLevel.LOW = 3 := by
  have hcat : ∀ (g : String × List Vulnerability) (r : SecurityRecommendation),
      depUpdateRec? g = some r →
        decide (r.category = "Dependency Update") = true := by
    intro g r h
    simp [(depUpdateRec?_spec g r h).1]
  have hd := filter_of_filterMap_all depUpdateRec?
    (fun r : SecurityRecommendation => r.category = "Dependency Update")
    (vulnsByTypeGroups vulnerabilities) hcat
  have hmain :
      ((generateRecommendations vulnerabilities supplyChainRisks).filter
          (fun r => r.category = "Dependency Update")) =
        (vulnsByTypeGroups vulnerabilities).filterMap depUpdateRec? := by
    unfold generateRecommendations
    simp only [List.filter_append]
    split_ifs <;>
      simp [List.filter_append, hd, List.filter_cons]
  refine ⟨hmain, ?_, ?_, rfl, rfl, rfl, rfl⟩
  · rw [hmain]
    exact length_filterMap_eq depUpdateRec? (vulnsByTypeGroups vulnerabilities)
  · rw [hmain]
    refine List.map_congr_left ?_
    intro r hr
    obtain ⟨g, _, hg⟩ := List.mem_filterMap.mp hr
    exact (depUpdateRec?_spec g r hg).2

end VibeManager
